import Mathlib

/-!
Shallow embedding of the sampling / light-transport core of the SeeSharp
"renderground" library (raytrace.cpp, renderground.cpp, generic.cpp,
generic.h, scene.h, simplepath.cpp), with theorems checking the
natural-language specification against it.

Geometry is modelled over the real numbers.  External collaborators
(the intersection backend, image decoding, mesh attribute storage) and
repository code that is not part of the given sources (math/wrap.h,
mesh.cpp, image.cpp, the C-API shading wrappers) are modelled from the
spec, each marked by a doc comment.
-/

/-- A 2d vector of reals (Vector2 in the source). -/
structure Vec2 where
  x : ℝ
  y : ℝ

/-- A 3d vector of reals (Vector3 in the source). -/
structure Vec3 where
  x : ℝ
  y : ℝ
  z : ℝ

instance : Add Vec3 := ⟨fun a b => ⟨a.x + b.x, a.y + b.y, a.z + b.z⟩⟩

instance : Sub Vec3 := ⟨fun a b => ⟨a.x - b.x, a.y - b.y, a.z - b.z⟩⟩

instance : Neg Vec3 := ⟨fun a => ⟨-a.x, -a.y, -a.z⟩⟩

instance : SMul ℝ Vec3 := ⟨fun r a => ⟨r * a.x, r * a.y, r * a.z⟩⟩

/-- Dot product (source: Dot). -/
def Dot (a b : Vec3) : ℝ := a.x * b.x + a.y * b.y + a.z * b.z

/-- Cross product (source: Cross). -/
def Cross (a b : Vec3) : Vec3 :=
  ⟨a.y * b.z - a.z * b.y, a.z * b.x - a.x * b.z, a.x * b.y - a.y * b.x⟩

/-- Squared euclidean length (source: LengthSquared). -/
def LengthSquared (a : Vec3) : ℝ := Dot a a

/-- Normalization to unit length (source: Normalize); the zero vector maps
to itself, mirroring that real division by zero yields zero in the model. -/
noncomputable def Normalize (v : Vec3) : Vec3 :=
  (Real.sqrt (LengthSquared v))⁻¹ • v

/-- SurfacePoint of the source: a point on a triangle mesh with the id of
its mesh, the triangle index, barycentric coordinates, and the resolved
world position and normal.  The meshId value -1 is the miss sentinel. -/
structure SurfacePoint where
  meshId : ℤ
  primId : ℤ
  barycentricCoords : Vec2
  position : Vec3
  normal : Vec3

/-- Ray of the source: origin, (not necessarily unit) direction, and the
errorOffset used to displace spawned rays off the surface. -/
structure Ray where
  origin : Vec3
  direction : Vec3
  errorOffset : ℝ

/-- Hit of the source: a surface point plus the ray parameter at which it
was found and the inherited errorOffset. -/
structure Hit where
  point : SurfacePoint
  distance : ℝ
  errorOffset : ℝ

/-- SurfaceSample of the source: a surface point plus the jacobian of the
primary-sample-space to surface-area mapping. -/
structure SurfaceSample where
  point : SurfacePoint
  jacobian : ℝ

/-- GeometryTerms of the source (raytrace.cpp): the two cosines, the
squared distance and the combined geometric term. -/
structure GeometryTerms where
  cosineFrom : ℝ
  cosineTo : ℝ
  squaredDistance : ℝ
  geomTerm : ℝ

/-- ComputeGeometryTerms (raytrace.cpp lines 121-143): normalizes the
connecting direction, takes the two absolute cosines, and divides by the
squared distance; the geometric term is forced to 0 for coincident
points. -/
noncomputable def ComputeGeometryTerms (p q : SurfacePoint) : GeometryTerms :=
  let d := q.position - p.position
  let squaredDistance := LengthSquared d
  let dir := (Real.sqrt squaredDistance)⁻¹ • d
  let cosSurface := |Dot p.normal dir|
  let cosLight := |Dot q.normal (-dir)|
  let geomTerm := cosSurface * cosLight / squaredDistance
  ⟨cosSurface, cosLight, squaredDistance,
   if squaredDistance = 0 then 0 else geomTerm⟩

/-- ComputePrimaryToEmitterRayJacobian (raytrace.cpp lines 92-94): returns
the constant vector (0, 0) for every input. -/
def ComputePrimaryToEmitterRayJacobian (origin : SurfacePoint)
    (direction : Vec3) : Vec2 :=
  ⟨0, 0⟩

/-- IsOccluded (raytrace.cpp lines 101-110), with the external
intersection backend (TraceSingle, out of scope per the spec) abstracted
as the trace argument.  The shadow ray starts at the unoffset hit
position; the hit's errorOffset rides along on the ray. -/
def IsOccluded (trace : Ray → Hit) (h : Hit) (target : Vec3) : Prop :=
  let shadowDir := target - h.point.position
  let shadowHit := trace ⟨h.point.position, shadowDir, h.errorOffset⟩
  0 ≤ shadowHit.point.meshId ∧ shadowHit.distance < 1 - h.errorOffset

/-- SpawnRay (raytrace.cpp lines 112-119): offsets the ray origin along
the surface normal by errorOffset, signed toward the side the direction
points into. -/
noncomputable def SpawnRay (h : Hit) (direction : Vec3) : Ray :=
  let sign : ℝ := if Dot direction h.point.normal < 0 then -1 else 1
  ⟨h.point.position + (sign * h.errorOffset) • h.point.normal,
   direction, h.errorOffset⟩

/-- Modelled from the spec wording of claim C3, for comparison with the
source: the same occlusion test but with the shadow-ray origin offset
along the surface normal by plus or minus errorOffset, the sign chosen
toward the side shadowDir points into. -/
noncomputable def specIsOccluded (trace : Ray → Hit) (h : Hit) (target : Vec3) : Prop :=
  let shadowDir := target - h.point.position
  let sign : ℝ := if Dot shadowDir h.point.normal < 0 then -1 else 1
  let origin := h.point.position + (sign * h.errorOffset) • h.point.normal
  let shadowHit := trace ⟨origin, shadowDir, h.errorOffset⟩
  0 ≤ shadowHit.point.meshId ∧ shadowHit.distance < 1 - h.errorOffset

/-- A concrete backend that returns a miss for rays starting at height
z <= 0 and a blocker at parameter 1/2 for rays starting above: it
distinguishes the unoffset origin from the normal-offset origin. -/
noncomputable def occlTrace : Ray → Hit := fun r =>
  if r.origin.z ≤ 0 then ⟨⟨-1, 0, ⟨0, 0⟩, ⟨0, 0, 0⟩, ⟨0, 0, 0⟩⟩, 0, 0⟩
  else ⟨⟨0, 0, ⟨0, 0⟩, ⟨0, 0, 0⟩, ⟨0, 0, 0⟩⟩, 1 / 2, 0⟩

/-- A concrete hit at the world origin with normal (0,0,1) and
errorOffset 1/10. -/
noncomputable def occlHit : Hit :=
  ⟨⟨0, 0, ⟨0, 0⟩, ⟨0, 0, 0⟩, ⟨0, 0, 1⟩⟩, 1, 1 / 10⟩

/-- Modelled from the spec: renderground's Image class (image.h and
image.cpp are not under src/); only the pixel lookup GetValue at
texture coordinates is needed by the shading claims. -/
structure GImage where
  getValue : ℝ → ℝ → Vec3

/-- Modelled from the spec: the Mesh class (mesh.h and mesh.cpp are not
under src/); the Geometry Store interpolation and primary-sample-space
queries of spec section 4.1 are taken as abstract data sources. -/
structure Mesh where
  computeShadingNormal : ℤ → Vec2 → Vec3
  computeTextureCoordinates : ℤ → Vec2 → Vec2
  primarySampleToSurface : Vec2 → SurfaceSample
  computePrimaryToSurfaceJacobian : SurfacePoint → ℝ

/-- A sampled direction with its density (math/wrap.h DirSample). -/
structure DirectionSample where
  direction : Vec3
  jacobian : ℝ

/-- Modelled from the spec: WrapToCosHemisphere of math/wrap.h is not
under src/.  Cosine-weighted mapping of the unit square onto the upper
unit hemisphere in shading space; the density of the sampled direction
is cos(theta)/pi, i.e. direction.z / pi. -/
noncomputable def WrapToCosHemisphere (u : Vec2) : DirectionSample :=
  let phi := 2 * Real.pi * u.x
  let r := Real.sqrt u.y
  let z := Real.sqrt (1 - u.y)
  ⟨⟨r * Real.cos phi, r * Real.sin phi, z⟩, z / Real.pi⟩

/-- Modelled from the spec: ComputeCosHemisphereJacobian of math/wrap.h
is not under src/.  The cosine-weighted hemisphere density of a
direction whose cosine against the normal is c, namely c / pi. -/
noncomputable def ComputeCosHemisphereJacobian (c : ℝ) : ℝ := c / Real.pi

/-- Modelled from the spec: ComputeBasisVectors of the math module is
not under src/.  Completes a normal to a tangent and binormal; the
claims never depend on the particular choice. -/
noncomputable def ComputeBasisVectors (n : Vec3) : Vec3 × Vec3 :=
  let t := if |n.x| > |n.z| then Normalize ⟨-n.y, n.x, 0⟩
           else Normalize ⟨0, -n.z, n.y⟩
  (t, Cross n t)

/-- BsdfSampleInfo of the source: the forward sampling jacobian and the
reverse (adjoint) jacobian. -/
structure BsdfSampleInfo where
  jacobian : ℝ
  reverseJacobian : ℝ

/-- GenericMaterialParameters (generic.h): optional base-color image and
optional emission image. -/
structure GenericMaterialParameters where
  baseColor : Option GImage
  emission : Option GImage

/-- GenericMaterial (generic.h): the concrete material variant.  The
scene pointer of the Material base class is modelled by the mesh lookup
getMesh (Scene::GetMesh is an unchecked vector index; the shading claims
use in-range mesh ids). -/
structure GenericMaterial where
  getMesh : ℤ → Mesh
  parameters : GenericMaterialParameters

/-- GenericMaterial::IsEmissive (generic.h lines 29-31): true iff an
emission image is attached. -/
def GenericMaterial.IsEmissive (m : GenericMaterial) : Bool :=
  m.parameters.emission.isSome

/-- GenericMaterial::WrapPrimarySampleToBsdf (generic.cpp lines 44-74).
As in the source, a shading normal is computed but NOT used: the
hemisphere is centered on point.normal flipped toward outDir.  Returns
the sampled in-direction together with the BsdfSampleInfo. -/
noncomputable def GenericMaterial.WrapPrimarySampleToBsdf
    (mat : GenericMaterial) (point : SurfacePoint) (outDir : Vec3)
    (isOnLightSubpath : Bool) (primarySample : Vec2) :
    Vec3 × BsdfSampleInfo :=
  let texCoords := (mat.getMesh point.meshId).computeTextureCoordinates
    point.primId point.barycentricCoords
  let shadingNormal := (mat.getMesh point.meshId).computeShadingNormal
    point.primId point.barycentricCoords
  let normal := if Dot point.normal outDir < 0 then -point.normal
                else point.normal
  let dirSample := WrapToCosHemisphere primarySample
  let tb := ComputeBasisVectors normal
  let inDir := dirSample.direction.z • normal +
    dirSample.direction.x • tb.1 + dirSample.direction.y • tb.2
  (inDir, ⟨dirSample.jacobian, dirSample.jacobian⟩)

/-- GenericMaterial::ComputeEmission (generic.cpp lines 76-91): zero
when the outgoing direction is not strictly on the shading normal's
side, else the emission image's value at the texture coordinates, or
zero without an emission image. -/
noncomputable def GenericMaterial.ComputeEmission (mat : GenericMaterial)
    (point : SurfacePoint) (outDir : Vec3) : Vec3 :=
  let texCoords := (mat.getMesh point.meshId).computeTextureCoordinates
    point.primId point.barycentricCoords
  let shadingNormal := (mat.getMesh point.meshId).computeShadingNormal
    point.primId point.barycentricCoords
  if Dot shadingNormal outDir ≤ 0 then ⟨0, 0, 0⟩
  else
    match mat.parameters.emission with
    | some img => img.getValue texCoords.x texCoords.y
    | none => ⟨0, 0, 0⟩

/-- GenericMaterial::ComputeJacobians (generic.cpp lines 93-108):
recomputes the diffuse density of a supplied direction pair from the
UNFLIPPED shading normal; forward and reverse are equal. -/
noncomputable def GenericMaterial.ComputeJacobians (mat : GenericMaterial)
    (point : SurfacePoint) (inDir outDir : Vec3)
    (isOnLightSubpath : Bool) : BsdfSampleInfo :=
  let shadingNormal := (mat.getMesh point.meshId).computeShadingNormal
    point.primId point.barycentricCoords
  let normalizedInDir := Normalize inDir
  let diffuseJacobian :=
    ComputeCosHemisphereJacobian (Dot normalizedInDir shadingNormal)
  ⟨diffuseJacobian, diffuseJacobian⟩

/-- Modelled from the spec wording of claim C4, for comparison with the
source: the same sampler but with the hemisphere centered on the
SHADING normal flipped toward outDir, as the spec (and the source's own
comment at generic.cpp line 52) describe. -/
noncomputable def specWrapPrimarySampleToBsdf
    (mat : GenericMaterial) (point : SurfacePoint) (outDir : Vec3)
    (isOnLightSubpath : Bool) (primarySample : Vec2) :
    Vec3 × BsdfSampleInfo :=
  let shadingNormal := (mat.getMesh point.meshId).computeShadingNormal
    point.primId point.barycentricCoords
  let normal := if Dot shadingNormal outDir < 0 then -shadingNormal
                else shadingNormal
  let dirSample := WrapToCosHemisphere primarySample
  let tb := ComputeBasisVectors normal
  let inDir := dirSample.direction.z • normal +
    dirSample.direction.x • tb.1 + dirSample.direction.y • tb.2
  (inDir, ⟨dirSample.jacobian, dirSample.jacobian⟩)

/-- A concrete surface point at the origin with normal (0,0,1). -/
def surfPoint0 : SurfacePoint := ⟨0, 0, ⟨0, 0⟩, ⟨0, 0, 0⟩, ⟨0, 0, 1⟩⟩

/-- A concrete mesh whose shading normal is the constant n, with zero
texture coordinates and trivial sampling data. -/
def meshConstNormal (n : Vec3) : Mesh :=
  ⟨fun _ _ => n, fun _ _ => ⟨0, 0⟩, fun _ => ⟨surfPoint0, 1⟩, fun _ => 1⟩

/-- A non-emissive material over a mesh with constant shading normal
(1,0,0), deliberately different from surfPoint0's normal (0,0,1). -/
def matShadingX : GenericMaterial :=
  ⟨fun _ => meshConstNormal ⟨1, 0, 0⟩, ⟨none, none⟩⟩

/-- A non-emissive material over a mesh with constant shading normal
(0,0,1), agreeing with surfPoint0's normal. -/
def matShadingZ : GenericMaterial :=
  ⟨fun _ => meshConstNormal ⟨0, 0, 1⟩, ⟨none, none⟩⟩

/-- An emission image whose value is the constant (1,1,1). -/
def whiteImage : GImage := ⟨fun _ _ => ⟨1, 1, 1⟩⟩

/-- An emissive material over a mesh with constant shading normal
(0,0,1). -/
def matEmissive : GenericMaterial :=
  ⟨fun _ => meshConstNormal ⟨0, 0, 1⟩, ⟨none, some whiteImage⟩⟩

/-- The global tables that FinalizeScene (raytrace.cpp lines 34-48)
reads: the number of meshes in the scene, the mesh-to-material
assignment map, and the material table. -/
structure SceneTables where
  numMeshes : ℕ
  meshToMaterial : ℕ → Option ℕ
  materials : List GenericMaterial

/-- FinalizeScene (raytrace.cpp lines 34-48): scans the meshes in id
order and appends to the emitter registry each mesh that has an
assigned material whose IsEmissive() is true.  The unchecked C++ vector
index into the material table is modelled by a list lookup that treats
a dangling material id as not emissive. -/
def FinalizeScene (st : SceneTables) : List ℕ :=
  (List.range st.numMeshes).filter fun meshId =>
    match st.meshToMaterial meshId with
    | none => false
    | some matId =>
      match st.materials.get? matId with
      | some mat => mat.IsEmissive
      | none => false

/-- The error outcomes of the public query surface: checkFailed is the
explicit precondition failure raised by ApiCheck (api/internal.h is not
under src/; modelled from the spec's precondition-violation error
class), while outOfBounds marks an unchecked C++ container access with
an out-of-range index — an access the source performs with no
preceding check. -/
inductive ApiErr where
  | checkFailed : ApiErr
  | outOfBounds : ApiErr
deriving DecidableEq

/-- Unchecked C++ std::vector indexing by a possibly negative int, made
total: none when the index lies outside the table. -/
def vecGet? {α : Type} (l : List α) (i : ℤ) : Option α :=
  if i < 0 then none else l.get? i.toNat

/-- WrapPrimarySampleToSurface (raytrace.cpp lines 65-77): validates
the unit-square parameters and the mesh id with ApiCheck, then wraps
the sample onto the mesh surface and stamps the mesh id on the sampled
point. -/
noncomputable def WrapPrimarySampleToSurface (meshes : List Mesh)
    (meshId : ℤ) (u v : ℝ) : Except ApiErr SurfaceSample :=
  if ¬(0 ≤ u ∧ u ≤ 1) then .error .checkFailed
  else if ¬(0 ≤ v ∧ v ≤ 1) then .error .checkFailed
  else if ¬(meshId < (meshes.length : ℤ)) then .error .checkFailed
  else if ¬(0 ≤ meshId) then .error .checkFailed
  else
    match vecGet? meshes meshId with
    | some m =>
      let sample := m.primarySampleToSurface ⟨u, v⟩
      .ok ⟨⟨meshId, sample.point.primId, sample.point.barycentricCoords,
            sample.point.position, sample.point.normal⟩, sample.jacobian⟩
    | none => .error .outOfBounds

/-- AddSplat (renderground.cpp lines 68-71): indexes the image table
with NO validation (the source carries the comment TODO check that the
image id is correct) and accumulates into the image.  Image::AddValue
itself (image.cpp is not under src/) is irrelevant to the validation
claim, so only the outcome is modelled. -/
def AddSplat (images : List GImage) (image : ℤ) (x y : ℝ)
    (value : ℝ) : Except ApiErr Unit :=
  match vecGet? images image with
  | some _ => .ok ()
  | none => .error .outOfBounds

/-- ComputePrimaryToSurfaceJacobian (raytrace.cpp lines 96-99): fetches
the mesh for point.meshId with NO validation and delegates to the
mesh's jacobian query. -/
def ComputePrimaryToSurfaceJacobian (meshes : List Mesh)
    (point : SurfacePoint) : Except ApiErr ℝ :=
  match vecGet? meshes point.meshId with
  | some m => .ok (m.computePrimaryToSurfaceJacobian point)
  | none => .error .outOfBounds

/-- AddTriangleMesh of raytrace.cpp (lines 23-32): ApiCheck rejects an
index count that is not a multiple of three, then Scene::AddMesh
(scene.cpp is not under src/; modelled from the spec as appending to
the mesh table and returning the new stable id) appends the mesh. -/
def AddTriangleMesh (meshes : List Mesh) (m : Mesh) (numIdx : ℤ) :
    Except ApiErr (List Mesh × ℕ) :=
  if ¬(numIdx % 3 = 0) then .error .checkFailed
  else .ok (meshes ++ [m], meshes.length)

/-- AddTriangleMesh of renderground.cpp (lines 17-25): the same entry
point with NO index-count check; the source carries the comment TODO
ensure that numIdx is a multiple of 3. -/
def AddTriangleMeshUnchecked (meshes : List Mesh) (m : Mesh)
    (numIdx : ℤ) : List Mesh × ℕ :=
  (meshes ++ [m], meshes.length)

/-- Modelled from the spec: the C-API query surface consumed by the
example estimator (the camera, the intersection backend and the shading
wrapper functions live in api sources not under src/).  Each field
abstracts one query at the example's fixed wavelength; radiance and
BSDF values are the monochrome reals the example manipulates. -/
structure RenderApi where
  traceSingle : Ray → Hit
  wrapPrimarySampleToSurface : ℤ → ℝ → ℝ → SurfaceSample
  computeEmission : SurfacePoint → Vec3 → ℝ
  evaluateBsdf : SurfacePoint → Vec3 → Vec3 → ℝ
  wrapPrimarySampleToBsdf : SurfacePoint → Vec3 → ℝ → ℝ → DirectionSample

open Classical in
/-- The per-pixel estimator body of the example renderer
(simplepath.cpp lines 100-146): trace the camera ray; on a miss nothing
is splatted (none); otherwise the local value starts at 0, the NEE
branch assigns its contribution if the light sample is unoccluded, the
BSDF-sampling branch assigns its contribution if the sampled ray hits
the light mesh — OVERWRITING the previous value, as in the source — and
the final value is splatted once.  IsOccluded, SpawnRay and
ComputeGeometryTerms are the source functions defined above; the light
sample uses the example's fixed primary sample (0.5, 0.5). -/
noncomputable def PixelEstimate (api : RenderApi) (lightMesh : ℤ)
    (ray : Ray) : Option ℝ :=
  let hit := api.traceSingle ray
  if hit.point.meshId < 0 then none
  else
    let lightSample := api.wrapPrimarySampleToSurface lightMesh (1/2) (1/2)
    let value1 : ℝ :=
      if IsOccluded api.traceSingle hit lightSample.point.position then 0
      else
        let lightDir := hit.point.position - lightSample.point.position
        let emission := api.computeEmission lightSample.point lightDir
        let bsdfValue := api.evaluateBsdf hit.point (-ray.direction) lightDir
        let geometryTerms := ComputeGeometryTerms hit.point lightSample.point
        emission * bsdfValue * geometryTerms.geomTerm / lightSample.jacobian
    let bsdfSample := api.wrapPrimarySampleToBsdf hit.point (-ray.direction)
      (1/2) (1/2)
    let bsdfValue := api.evaluateBsdf hit.point (-ray.direction)
      bsdfSample.direction
    let bsdfRay := SpawnRay hit bsdfSample.direction
    let bsdfHit := api.traceSingle bsdfRay
    let value2 : ℝ :=
      if bsdfHit.point.meshId = lightMesh then
        let emission := api.computeEmission bsdfHit.point (-bsdfRay.direction)
        let geometryTerms := ComputeGeometryTerms hit.point bsdfHit.point
        emission * bsdfValue * geometryTerms.cosineFrom / bsdfSample.jacobian
      else value1
    some value2

/-- A surface point on the light mesh (id 1) at (0,0,-1). -/
def lightPoint : SurfacePoint := ⟨1, 0, ⟨0, 0⟩, ⟨0, 0, -1⟩, ⟨0, 0, 1⟩⟩

/-- The camera hit on the diffuse quad (mesh 0). -/
noncomputable def quadHit : Hit := ⟨surfPoint0, 5, 1 / 100⟩

/-- The light hit at ray parameter 1: at the target, hence not counted
as a blocker by the occlusion test. -/
noncomputable def lightHitFar : Hit := ⟨lightPoint, 1, 1 / 100⟩

/-- The light hit at ray parameter 1/2: strictly between origin and
target, hence counted as a blocker. -/
noncomputable def lightHitNear : Hit := ⟨lightPoint, 1 / 2, 1 / 100⟩

/-- A concrete query instantiation in which both techniques are active:
the camera ray hits the quad, the light sample is unoccluded (NEE
contribution 5), and the BSDF sample ray hits the light mesh
(contribution 5/2 after dividing by its jacobian 2). -/
noncomputable def estApiUnoccluded : RenderApi :=
  ⟨fun r => if r.direction.z < 0 then lightHitFar else quadHit,
   fun _ _ _ => ⟨lightPoint, 1⟩,
   fun _ _ => 5,
   fun _ _ _ => 1,
   fun _ _ _ _ => ⟨⟨0, 0, -1⟩, 2⟩⟩

/-- The same queries except that the shadow ray now finds a blocker at
parameter 1/2, so the NEE technique contributes nothing. -/
noncomputable def estApiOccluded : RenderApi :=
  ⟨fun r => if r.direction.z < 0 then lightHitNear else quadHit,
   fun _ _ _ => ⟨lightPoint, 1⟩,
   fun _ _ => 5,
   fun _ _ _ => 1,
   fun _ _ _ _ => ⟨⟨0, 0, -1⟩, 2⟩⟩

/-- The example's camera ray from (0,0,-5) toward +z. -/
def cameraRay : Ray := ⟨⟨0, 0, -5⟩, ⟨0, 0, 1⟩, 0⟩

@[simp] lemma Vec3.add_def (a b : Vec3) :
    a + b = ⟨a.x + b.x, a.y + b.y, a.z + b.z⟩ := rfl

@[simp] lemma Vec3.sub_def (a b : Vec3) :
    a - b = ⟨a.x - b.x, a.y - b.y, a.z - b.z⟩ := rfl

@[simp] lemma Vec3.neg_def (a : Vec3) : -a = ⟨-a.x, -a.y, -a.z⟩ := rfl

@[simp] lemma Vec3.smul_def (r : ℝ) (a : Vec3) :
    r • a = ⟨r * a.x, r * a.y, r * a.z⟩ := rfl

/-- Claim C2: for every pair of surface points with unit-length normals,
ComputeGeometryTerms returns cosFrom = |dot(from.normal, dir)|,
cosTo = |dot(to.normal, -dir)| for the normalized connecting direction dir,
geomTerm = cosFrom * cosTo / squaredDistance, with geomTerm = 0 whenever
the squared distance is 0; in particular the geometric term of a point
with itself is 0 for every surface point. -/
theorem computeGeometryTerms_spec (p q : SurfacePoint)
    (hp : LengthSquared p.normal = 1) (hq : LengthSquared q.normal = 1) :
    ((ComputeGeometryTerms p q).cosineFrom =
        |Dot p.normal
          ((Real.sqrt (LengthSquared (q.position - p.position)))⁻¹ •
            (q.position - p.position))| ∧
     (ComputeGeometryTerms p q).cosineTo =
        |Dot q.normal
          (-((Real.sqrt (LengthSquared (q.position - p.position)))⁻¹ •
            (q.position - p.position)))| ∧
     (ComputeGeometryTerms p q).squaredDistance =
        LengthSquared (q.position - p.position) ∧
     (ComputeGeometryTerms p q).geomTerm =
        (ComputeGeometryTerms p q).cosineFrom *
          (ComputeGeometryTerms p q).cosineTo /
          LengthSquared (q.position - p.position) ∧
     (LengthSquared (q.position - p.position) = 0 →
        (ComputeGeometryTerms p q).geomTerm = 0)) ∧
    ∀ r : SurfacePoint, (ComputeGeometryTerms r r).geomTerm = 0 := by
  constructor
  · refine ⟨rfl, rfl, rfl, ?_, ?_⟩
    · by_cases hs : LengthSquared (q.position - p.position) = 0
      · simp only [ComputeGeometryTerms, hs, if_pos]
        rw [div_zero]
      · simp only [ComputeGeometryTerms, if_neg hs]
    · intro hs
      simp only [ComputeGeometryTerms, hs, if_pos]
  · intro r
    simp [ComputeGeometryTerms, LengthSquared, Dot]

/-- Witness for claim C2 at concrete points: two points one unit apart
with opposed unit normals give geometric term cosFrom x cosTo / 1. -/
theorem computeGeometryTerms_spec_witness :
    (ComputeGeometryTerms
        ⟨0, 0, ⟨0, 0⟩, ⟨0, 0, 0⟩, ⟨0, 0, 1⟩⟩
        ⟨0, 0, ⟨0, 0⟩, ⟨0, 0, 1⟩, ⟨0, 0, -1⟩⟩).geomTerm =
      (ComputeGeometryTerms
        ⟨0, 0, ⟨0, 0⟩, ⟨0, 0, 0⟩, ⟨0, 0, 1⟩⟩
        ⟨0, 0, ⟨0, 0⟩, ⟨0, 0, 1⟩, ⟨0, 0, -1⟩⟩).cosineFrom *
      (ComputeGeometryTerms
        ⟨0, 0, ⟨0, 0⟩, ⟨0, 0, 0⟩, ⟨0, 0, 1⟩⟩
        ⟨0, 0, ⟨0, 0⟩, ⟨0, 0, 1⟩, ⟨0, 0, -1⟩⟩).cosineTo /
      LengthSquared
        ((⟨0, 0, ⟨0, 0⟩, ⟨0, 0, 1⟩, ⟨0, 0, -1⟩⟩ : SurfacePoint).position -
         (⟨0, 0, ⟨0, 0⟩, ⟨0, 0, 0⟩, ⟨0, 0, 1⟩⟩ : SurfacePoint).position) := by
  have h := computeGeometryTerms_spec
    ⟨0, 0, ⟨0, 0⟩, ⟨0, 0, 0⟩, ⟨0, 0, 1⟩⟩
    ⟨0, 0, ⟨0, 0⟩, ⟨0, 0, 1⟩, ⟨0, 0, -1⟩⟩
    (by norm_num [LengthSquared, Dot])
    (by norm_num [LengthSquared, Dot])
  exact h.1.2.2.2.1

/-- Claim C10: ComputePrimaryToEmitterRayJacobian returns the zero vector
for every surface point and direction; it never computes a
direction-sampling jacobian from its arguments. -/
theorem computePrimaryToEmitterRayJacobian_zero
    (origin : SurfacePoint) (direction : Vec3) :
    ComputePrimaryToEmitterRayJacobian origin direction = ⟨0, 0⟩ :=
  rfl

/-- Counterexample to claim C3: against the concrete backend occlTrace,
the source IsOccluded (origin not offset) reports unoccluded while the
claimed behaviour (origin offset along the normal toward the target
side) reports occluded, so IsOccluded does not offset the shadow-ray
origin along the surface normal. -/
theorem isOccluded_no_normal_offset_cex :
    ¬ IsOccluded occlTrace occlHit ⟨0, 0, 1⟩ ∧
      specIsOccluded occlTrace occlHit ⟨0, 0, 1⟩ := by
  constructor
  · norm_num [IsOccluded, occlTrace, occlHit, Dot]
  · norm_num [specIsOccluded, occlTrace, occlHit, Dot]

/-- Claim C3 (amended): IsOccluded traces shadowDir = target - position
from the unoffset hit position (no displacement along the surface
normal; the errorOffset is carried on the ray for the backend), and is
occluded iff the traced hit exists and its parameter is strictly less
than 1 - errorOffset along the unnormalized shadowDir. -/
theorem isOccluded_amended (trace : Ray → Hit) (h : Hit) (target : Vec3) :
    IsOccluded trace h target ↔
      (0 ≤ (trace ⟨h.point.position, target - h.point.position,
              h.errorOffset⟩).point.meshId ∧
       (trace ⟨h.point.position, target - h.point.position,
          h.errorOffset⟩).distance < 1 - h.errorOffset) :=
  Iff.rfl

/-- Claim C4 refuted on the code: at a surface point whose interpolated
shading normal (1,0,0) differs from point.normal (0,0,1), the source
sampler returns (0,0,1) — the cosine-hemisphere sample around
point.normal — whereas sampling around the flipped shading normal, as
the claim and the source's own comment state, would return (1,0,0).
Consequently the returned jacobian 1/pi is not the cosine-weighted
density of the returned direction about the shading normal, which is
0. -/
theorem wrapPrimarySampleToBsdf_ignores_shading_normal :
    (matShadingX.WrapPrimarySampleToBsdf surfPoint0 ⟨0, 0, 1⟩ false
        ⟨0, 0⟩).1 = ⟨0, 0, 1⟩ ∧
    (specWrapPrimarySampleToBsdf matShadingX surfPoint0 ⟨0, 0, 1⟩ false
        ⟨0, 0⟩).1 = ⟨1, 0, 0⟩ ∧
    (⟨0, 0, 1⟩ : Vec3) ≠ ⟨1, 0, 0⟩ ∧
    (matShadingX.WrapPrimarySampleToBsdf surfPoint0 ⟨0, 0, 1⟩ false
        ⟨0, 0⟩).2.jacobian = 1 / Real.pi ∧
    ComputeCosHemisphereJacobian
      (Dot (matShadingX.WrapPrimarySampleToBsdf surfPoint0 ⟨0, 0, 1⟩ false
          ⟨0, 0⟩).1
        ((matShadingX.getMesh surfPoint0.meshId).computeShadingNormal
          surfPoint0.primId surfPoint0.barycentricCoords)) = 0 ∧
    (1 / Real.pi : ℝ) ≠ 0 := by
  refine ⟨?_, ?_, ?_, ?_, ?_, one_div_ne_zero Real.pi_ne_zero⟩
  · norm_num [GenericMaterial.WrapPrimarySampleToBsdf, matShadingX,
      meshConstNormal, surfPoint0, WrapToCosHemisphere,
      ComputeBasisVectors, Normalize, LengthSquared, Dot, Cross]
  · norm_num [specWrapPrimarySampleToBsdf, matShadingX,
      meshConstNormal, surfPoint0, WrapToCosHemisphere,
      ComputeBasisVectors, Normalize, LengthSquared, Dot, Cross]
  · intro hcontra
    have := congrArg Vec3.z hcontra
    norm_num at this
  · norm_num [GenericMaterial.WrapPrimarySampleToBsdf, matShadingX,
      meshConstNormal, surfPoint0, WrapToCosHemisphere,
      ComputeBasisVectors, Normalize, LengthSquared, Dot, Cross]
  · norm_num [GenericMaterial.WrapPrimarySampleToBsdf, matShadingX,
      meshConstNormal, surfPoint0, WrapToCosHemisphere,
      ComputeBasisVectors, ComputeCosHemisphereJacobian, Normalize,
      LengthSquared, Dot, Cross]

/-- Claim C5 refuted on the code: with coinciding geometric and shading
normal (0,0,1) but the outgoing direction on the back side, the sampler
flips the normal and returns direction (0,0,-1) with jacobian 1/pi,
while ComputeJacobians on the very same (point, direction, outDir)
triple uses the unflipped shading normal and returns -(1/pi), so the
recomputed density does not agree with the sampler's. -/
theorem computeJacobians_sampler_mismatch :
    (matShadingZ.WrapPrimarySampleToBsdf surfPoint0 ⟨0, 0, -1⟩ false
        ⟨0, 0⟩).1 = ⟨0, 0, -1⟩ ∧
    (matShadingZ.WrapPrimarySampleToBsdf surfPoint0 ⟨0, 0, -1⟩ false
        ⟨0, 0⟩).2.jacobian = 1 / Real.pi ∧
    (matShadingZ.ComputeJacobians surfPoint0 ⟨0, 0, -1⟩ ⟨0, 0, -1⟩
        false).jacobian = -(1 / Real.pi) ∧
    (-(1 / Real.pi) : ℝ) ≠ 1 / Real.pi := by
  refine ⟨?_, ?_, ?_, ?_⟩
  · norm_num [GenericMaterial.WrapPrimarySampleToBsdf, matShadingZ,
      meshConstNormal, surfPoint0, WrapToCosHemisphere,
      ComputeBasisVectors, Normalize, LengthSquared, Dot, Cross]
  · norm_num [GenericMaterial.WrapPrimarySampleToBsdf, matShadingZ,
      meshConstNormal, surfPoint0, WrapToCosHemisphere,
      ComputeBasisVectors, Normalize, LengthSquared, Dot, Cross]
  · norm_num [GenericMaterial.ComputeJacobians, matShadingZ,
      meshConstNormal, surfPoint0, ComputeCosHemisphereJacobian,
      Normalize, LengthSquared, Dot, neg_div]
  · intro hcontra
    have hpos : (0 : ℝ) < 1 / Real.pi := by positivity
    linarith

/-- Claim C7: for every surface point and direction, ComputeEmission is
zero unless outDir lies strictly on the shading normal's side; on that
side it is the emission image's value at the point's texture
coordinates, or zero if no emission image is set. -/
theorem computeEmission_spec (mat : GenericMaterial)
    (point : SurfacePoint) (outDir : Vec3) :
    (Dot ((mat.getMesh point.meshId).computeShadingNormal point.primId
        point.barycentricCoords) outDir ≤ 0 →
      mat.ComputeEmission point outDir = ⟨0, 0, 0⟩) ∧
    (∀ img : GImage,
      0 < Dot ((mat.getMesh point.meshId).computeShadingNormal
        point.primId point.barycentricCoords) outDir →
      mat.parameters.emission = some img →
      mat.ComputeEmission point outDir =
        img.getValue
          ((mat.getMesh point.meshId).computeTextureCoordinates
            point.primId point.barycentricCoords).x
          ((mat.getMesh point.meshId).computeTextureCoordinates
            point.primId point.barycentricCoords).y) ∧
    (mat.parameters.emission = none →
      mat.ComputeEmission point outDir = ⟨0, 0, 0⟩) := by
  refine ⟨?_, ?_, ?_⟩
  · intro hle
    simp only [GenericMaterial.ComputeEmission]
    rw [if_pos hle]
  · intro img hgt heq
    simp only [GenericMaterial.ComputeEmission]
    rw [if_neg (not_le.mpr hgt), heq]
  · intro hnone
    simp only [GenericMaterial.ComputeEmission, hnone]
    split <;> rfl

/-- Witness for claim C7: for the concrete emissive material, a
direction on the shading normal's side receives the emission image's
value (1,1,1). -/
theorem computeEmission_spec_witness :
    matEmissive.ComputeEmission surfPoint0 ⟨0, 0, 1⟩ = ⟨1, 1, 1⟩ := by
  have h := (computeEmission_spec matEmissive surfPoint0 ⟨0, 0, 1⟩).2.1
    whiteImage
    (by norm_num [matEmissive, meshConstNormal, surfPoint0, Dot])
    rfl
  simpa [whiteImage] using h

/-- Claim C6: after Finalize the emitter registry contains exactly the
ids of meshes with an assigned emissive material, in ascending mesh-id
order, and on the scene with meshes A (non-emissive), B (emissive),
C (non-emissive) the registry is exactly the singleton of B's id. -/
theorem finalizeScene_emitter_registry (st : SceneTables) :
    (∀ meshId : ℕ,
      meshId ∈ FinalizeScene st ↔
        meshId < st.numMeshes ∧
          ∃ matId mat, st.meshToMaterial meshId = some matId ∧
            st.materials.get? matId = some mat ∧ mat.IsEmissive = true) ∧
    List.Pairwise (· < ·) (FinalizeScene st) ∧
    FinalizeScene
      ⟨3,
       fun n => if n = 0 then some 0 else if n = 1 then some 1
                else if n = 2 then some 0 else none,
       [matShadingZ, matEmissive]⟩ = [1] := by
  refine ⟨?_, ?_, ?_⟩
  · intro meshId
    simp only [FinalizeScene, List.mem_filter, List.mem_range]
    rcases h1 : st.meshToMaterial meshId with _ | matId
    · simp [h1]
    · rcases h2 : st.materials.get? matId with _ | mat
      · rw [List.get?_eq_getElem?] at h2
        simp [h1, h2]
      · rw [List.get?_eq_getElem?] at h2
        simp [h1, h2]
  · exact (List.pairwise_lt_range _).sublist (List.filter_sublist _)
  · rfl

/-- Counterexample to claim C8: an out-of-range image id passed to
AddSplat, and an out-of-range mesh id passed to
ComputePrimaryToSurfaceJacobian, reach the unchecked container access
instead of producing the precondition failure the claim promises for
every public query. -/
theorem addSplat_no_validation_cex :
    AddSplat [] 0 0 0 0 = .error .outOfBounds ∧
    ComputePrimaryToSurfaceJacobian [] surfPoint0 = .error .outOfBounds ∧
    ApiErr.outOfBounds ≠ ApiErr.checkFailed := by
  refine ⟨rfl, rfl, by decide⟩

/-- Claim C8 (amended): WrapPrimarySampleToSurface validates its [0,1]
parameters and its mesh id and raises a precondition failure on any
violation, but AddSplat and ComputePrimaryToSurfaceJacobian perform no
validation at all: they never raise a precondition failure, and an
out-of-range id reaches the container access unchecked. -/
theorem query_validation_amended :
    (∀ (meshes : List Mesh) (meshId : ℤ) (u v : ℝ),
      (u < 0 ∨ 1 < u ∨ v < 0 ∨ 1 < v ∨ meshId < 0 ∨
        (meshes.length : ℤ) ≤ meshId) →
      WrapPrimarySampleToSurface meshes meshId u v =
        .error .checkFailed) ∧
    (∀ (images : List GImage) (image : ℤ) (x y value : ℝ),
      AddSplat images image x y value ≠ .error .checkFailed) ∧
    (∀ (meshes : List Mesh) (point : SurfacePoint),
      (point.meshId < 0 ∨ (meshes.length : ℤ) ≤ point.meshId) →
      ComputePrimaryToSurfaceJacobian meshes point =
        .error .outOfBounds) := by
  refine ⟨?_, ?_, ?_⟩
  · intro meshes meshId u v hviol
    simp only [WrapPrimarySampleToSurface]
    by_cases h1 : 0 ≤ u ∧ u ≤ 1
    · rw [if_neg (not_not_intro h1)]
      by_cases h2 : 0 ≤ v ∧ v ≤ 1
      · rw [if_neg (not_not_intro h2)]
        by_cases h3 : meshId < (meshes.length : ℤ)
        · rw [if_neg (not_not_intro h3)]
          by_cases h4 : 0 ≤ meshId
          · exfalso
            rcases hviol with h | h | h | h | h | h
            · linarith [h1.1]
            · linarith [h1.2]
            · linarith [h2.1]
            · linarith [h2.2]
            · omega
            · omega
          · rw [if_pos h4]
        · rw [if_pos h3]
      · rw [if_pos h2]
    · rw [if_pos h1]
  · intro images image x y value
    cases hv : vecGet? images image <;> simp [AddSplat, hv]
  · intro meshes point h
    have hnone : vecGet? meshes point.meshId = none := by
      rcases h with h | h
      · simp [vecGet?, h]
      · rw [vecGet?, if_neg (by omega)]
        exact List.get?_eq_none.mpr (by omega)
    simp [ComputePrimaryToSurfaceJacobian, hnone]

/-- Witness for claim C8 (amended) at a concrete input: the u parameter
2 lies outside the unit interval, so WrapPrimarySampleToSurface raises
the precondition failure. -/
theorem query_validation_amended_witness :
    WrapPrimarySampleToSurface [] 0 2 0 = .error .checkFailed :=
  query_validation_amended.1 [] 0 2 0 (Or.inr (Or.inl (by norm_num)))

/-- Claim C9 against the code: the renderground.cpp variant of
AddTriangleMesh, called in the Building state with index count 4 (not
a multiple of three), performs no precondition check — it appends the
mesh and returns its stable id 0 — while the raytrace.cpp variant of
the same entry point raises the precondition failure the claim
describes. -/
theorem addTriangleMesh_missing_index_check :
    AddTriangleMeshUnchecked [] (meshConstNormal ⟨0, 0, 1⟩) 4 =
      ([meshConstNormal ⟨0, 0, 1⟩], 0) ∧
    (4 : ℤ) % 3 ≠ 0 ∧
    AddTriangleMesh [] (meshConstNormal ⟨0, 0, 1⟩) 4 =
      .error .checkFailed := by
  refine ⟨rfl, by decide, ?_⟩
  rfl

/-- Claim C1 against the code: with both techniques active the
estimator splats only the unweighted BSDF-technique value 5/2 — the
NEE technique's value 5 is overwritten, no MIS weight is applied and
ComputeJacobians is never consulted.  The splatted value is unchanged
when occlusion removes the NEE contribution entirely, showing that the
NEE technique never reaches the accumulator, contrary to the claimed
weighted sum of both techniques. -/
theorem pixelEstimate_overwrites_nee :
    PixelEstimate estApiUnoccluded 1 cameraRay = some (5 / 2) ∧
    PixelEstimate estApiOccluded 1 cameraRay = some (5 / 2) ∧
    ¬ IsOccluded estApiUnoccluded.traceSingle quadHit lightPoint.position ∧
    estApiUnoccluded.computeEmission lightPoint
        (surfPoint0.position - lightPoint.position) *
      estApiUnoccluded.evaluateBsdf surfPoint0 (-cameraRay.direction)
        (surfPoint0.position - lightPoint.position) *
      (ComputeGeometryTerms surfPoint0 lightPoint).geomTerm /
      (estApiUnoccluded.wrapPrimarySampleToSurface 1 (1/2) (1/2)).jacobian
        = 5 ∧
    (5 : ℝ) ≠ 5 / 2 := by
  refine ⟨?_, ?_, ?_, ?_, by norm_num⟩
  · norm_num [PixelEstimate, estApiUnoccluded, cameraRay, quadHit,
      lightHitFar, lightPoint, surfPoint0, IsOccluded, SpawnRay,
      ComputeGeometryTerms, LengthSquared, Dot, Real.sqrt_one]
  · norm_num [PixelEstimate, estApiOccluded, cameraRay, quadHit,
      lightHitNear, lightPoint, surfPoint0, IsOccluded, SpawnRay,
      ComputeGeometryTerms, LengthSquared, Dot, Real.sqrt_one]
  · norm_num [IsOccluded, estApiUnoccluded, quadHit, lightHitFar,
      lightPoint, surfPoint0]
  · norm_num [estApiUnoccluded, ComputeGeometryTerms, lightPoint,
      surfPoint0, LengthSquared, Dot, Real.sqrt_one]
